import Mathlib

/-!
Verification development for the xcapture thread-activity sampler
(tanelpoder/0xtools).  The definitions below are shallow embeddings of the
C functions in `src/xcapture`: machine integers are modelled as `Nat`/`Int`
with explicit reductions modulo `2^32` / `2^64` where the C code relies on
unsigned wraparound, fallible kernel/user-memory reads are modelled as
`Option` parameters, and BPF map state is passed explicitly.
-/

/-- Constant `2^64`, the modulus of C `__u64` arithmetic. -/
def U64 : Nat := 18446744073709551616

/-- Constant `2^63`, the boundary between nonnegative and negative `__s64` values. -/
def S64_HALF : Nat := 9223372036854775808

/-- Constant `2^32`, the modulus of C `__u32` arithmetic. -/
def U32 : Nat := 4294967296

/-- C unsigned 64-bit subtraction `a - b` (wraps modulo `2^64`). -/
def u64sub (a b : Nat) : Nat :=
  (a % U64 + (U64 - b % U64)) % U64

/-- Reinterpret a `__u64` bit pattern as `__s64` (two's complement). -/
def toS64 (n : Nat) : Int :=
  if n % U64 < S64_HALF then (n % U64 : Int) else (n % U64 : Int) - (U64 : Int)

theorem u64sub_eq (a b : Nat) (_ha : a < U64) (hb : b < U64) :
    u64sub a b = if b ≤ a then a - b else U64 - (b - a) := by
  simp only [u64sub, U64] at *
  split <;> omega

theorem toS64_u64sub (a b : Nat) (ha : a < S64_HALF) (hb : b < S64_HALF) :
    toS64 (u64sub a b) = (a : Int) - b := by
  simp only [toS64, u64sub, U64, S64_HALF] at *
  split <;> omega

theorem u64sub_sub_cancel (a b : Nat) (_ha : a < U64) (hb : b < U64) :
    u64sub a (u64sub a b) = b := by
  simp only [u64sub, U64] at *
  omega

/-- C `struct timespec` (`tv_sec : time_t`, `tv_nsec : long`, both 64-bit
signed). -/
structure Timespec where
  tv_sec : Int
  tv_nsec : Int
deriving Repr, DecidableEq

/-- Mirror of `struct time_correlation` from `xcapture_user.h`: the
`(CLOCK_REALTIME, CLOCK_MONOTONIC)` pair captured once per tick. -/
structure TimeCorrelation where
  wall_time : Timespec
  mono_time : Timespec
deriving Repr, DecidableEq

/-- The computation `__u64 mono_ns = tcorr->mono_time.tv_sec * 1000000000ULL +
tcorr->mono_time.tv_nsec;` computation from `get_wall_from_mono`
(`main.c`), performed in unsigned 64-bit arithmetic. -/
def monoNsU64 (tcorr : TimeCorrelation) : Nat :=
  ((tcorr.mono_time.tv_sec * 1000000000 + tcorr.mono_time.tv_nsec) % (U64 : Int)).toNat

/-- Function `get_wall_from_mono` from `main.c:682-700`: convert a BPF
`CLOCK_MONOTONIC` nanosecond value into a wall-clock `timespec` using the
per-tick clock pair.  `ns_diff` is the C `__s64 ns_diff = bpf_time -
mono_ns` (u64 wraparound then signed reinterpretation); the `%` and `/`
on `__s64` truncate toward zero, hence `Int.tmod` / `Int.tdiv`. -/
def get_wall_from_mono (tcorr : TimeCorrelation) (bpf_time : Nat) : Timespec :=
  let mono_ns := monoNsU64 tcorr
  let ns_diff : Int := toS64 (u64sub bpf_time mono_ns)
  let nsec1 := tcorr.wall_time.tv_nsec + ns_diff.tmod 1000000000
  let sec1 := tcorr.wall_time.tv_sec + ns_diff.tdiv 1000000000
  if nsec1 ≥ 1000000000 then ⟨sec1 + 1, nsec1 - 1000000000⟩
  else if nsec1 < 0 then ⟨sec1 - 1, nsec1 + 1000000000⟩
  else ⟨sec1, nsec1⟩

/-- Total nanoseconds represented by a `timespec`. -/
def wallTotalNs (ts : Timespec) : Int :=
  ts.tv_sec * 1000000000 + ts.tv_nsec

theorem tmod_neg_dividend (a b : Int) : (-a).tmod b = -(a.tmod b) := by
  rw [Int.tmod_def, Int.tmod_def, Int.neg_tdiv, Int.mul_neg]
  omega

theorem tmod_gt_neg (a : Int) {b : Int} (hb : 0 < b) : -b < a.tmod b := by
  rcases le_or_lt 0 a with h | h
  · have := Int.tmod_nonneg b h
    omega
  · have ha : a = -(-a) := by omega
    rw [ha, tmod_neg_dividend]
    have h1 : (-a).tmod b < b := Int.tmod_lt_of_pos _ hb
    omega

/-- Linearity: `get_wall_from_mono` is exactly linear in total nanoseconds: the
result equals the captured wall time plus the signed difference between
`bpf_time` and the captured monotonic time. -/
theorem get_wall_from_mono_total (tcorr : TimeCorrelation) (m : Nat) :
    wallTotalNs (get_wall_from_mono tcorr m)
      = wallTotalNs tcorr.wall_time + toS64 (u64sub m (monoNsU64 tcorr)) := by
  unfold get_wall_from_mono wallTotalNs
  dsimp only
  set d : Int := toS64 (u64sub m (monoNsU64 tcorr)) with hd
  have hdecomp := Int.tmod_add_tdiv d 1000000000
  have hub : d.tmod 1000000000 < 1000000000 := Int.tmod_lt_of_pos d (by norm_num)
  have hlb : -1000000000 < d.tmod 1000000000 := tmod_gt_neg d (by norm_num)
  generalize d.tmod 1000000000 = r at *
  generalize d.tdiv 1000000000 = q at *
  split <;> (try split) <;> dsimp only <;> omega

/-! ## Consumer: per-sample syscall duration and entry-time reconstruction
(`task_handler.c`, `handle_task_event`) -/

/-- From `task_handler.c:440-443`: `__u64 sc_duration_ns = 0; if
(event->storage.sc_enter_time > 0) sc_duration_ns =
event->storage.sample_actual_ktime - event->storage.sc_enter_time;`
(unsigned 64-bit subtraction, no clamping). -/
def handle_task_sc_duration_ns (sample_actual_ktime sc_enter_time : Nat) : Nat :=
  if sc_enter_time > 0 then u64sub sample_actual_ktime sc_enter_time else 0

/-- From `task_handler.c:450-453`: the reconstructed syscall-entry wall-clock
timestamp `get_wall_from_mono(&tcorr, sample_actual_ktime -
sc_duration_ns)`. -/
def handle_task_sysc_entry_wallclock (tcorr : TimeCorrelation)
    (sample_actual_ktime sc_enter_time : Nat) : Timespec :=
  get_wall_from_mono tcorr
    (u64sub sample_actual_ktime (handle_task_sc_duration_ns sample_actual_ktime sc_enter_time))

/-- From `task_handler.c:531`: the stdout column value `.sysc_us_so_far =
sc_duration_ns / 1000` (unsigned division). -/
def handle_task_sysc_us_so_far (sample_actual_ktime sc_enter_time : Nat) : Nat :=
  handle_task_sc_duration_ns sample_actual_ktime sc_enter_time / 1000

/-- C2: For every TaskSample with `sc_enter_time > 0`, the sample's
wall-clock timestamp (the wall time of `sample_actual_ktime`) minus the
syscall-entry wall-clock timestamp reconstructed by the Consumer equals
`sample_actual_ktime - sc_enter_time` exactly, in integer nanoseconds.
Range hypotheses say the kernel `CLOCK_MONOTONIC` values fit in a signed
64-bit nanosecond counter, as `bpf_ktime_get_ns` guarantees. -/
theorem c2_syscall_entry_reconstruction (tcorr : TimeCorrelation)
    (sample_actual_ktime sc_enter_time : Nat)
    (hm0 : 0 ≤ tcorr.mono_time.tv_sec) (hm1 : 0 ≤ tcorr.mono_time.tv_nsec)
    (hm2 : tcorr.mono_time.tv_sec * 1000000000 + tcorr.mono_time.tv_nsec < (S64_HALF : Int))
    (henter : 0 < sc_enter_time) (he : sc_enter_time < S64_HALF)
    (ha : sample_actual_ktime < S64_HALF) :
    wallTotalNs (get_wall_from_mono tcorr sample_actual_ktime)
      - wallTotalNs (handle_task_sysc_entry_wallclock tcorr sample_actual_ktime sc_enter_time)
    = (sample_actual_ktime : Int) - (sc_enter_time : Int) := by
  have hhalf : S64_HALF < U64 := by decide
  have hmono : monoNsU64 tcorr < S64_HALF := by
    simp only [monoNsU64, U64, S64_HALF] at *
    push_cast at *
    omega
  unfold handle_task_sysc_entry_wallclock handle_task_sc_duration_ns
  rw [if_pos henter]
  rw [u64sub_sub_cancel _ _ (by omega) (by omega)]
  rw [get_wall_from_mono_total, get_wall_from_mono_total]
  rw [toS64_u64sub _ _ ha hmono, toS64_u64sub _ _ he hmono]
  ring

/-- Witness for C2 at a concrete clock pair and sample. -/
theorem c2_syscall_entry_reconstruction_witness :
    wallTotalNs (get_wall_from_mono ⟨⟨1700000000, 123456789⟩, ⟨5, 500⟩⟩ 7000000000)
      - wallTotalNs (handle_task_sysc_entry_wallclock ⟨⟨1700000000, 123456789⟩, ⟨5, 500⟩⟩
          7000000000 6000000000)
    = (7000000000 : Int) - (6000000000 : Int) :=
  c2_syscall_entry_reconstruction ⟨⟨1700000000, 123456789⟩, ⟨5, 500⟩⟩ 7000000000 6000000000
    (by decide) (by decide) (by decide) (by decide) (by decide) (by decide)

/-- C3 counterexample: with `sample_actual_ktime = 100 < sc_enter_time =
200` the Consumer's `SYSC_NS_SO_FAR` value and the so-far microsecond
column are not clamped to zero. -/
theorem c3_clamp_counterexample :
    handle_task_sc_duration_ns 100 200 ≠ 0 ∧ handle_task_sysc_us_so_far 100 200 ≠ 0 := by
  constructor <;> decide

/-- C3 amended: when `sample_actual_ktime < sc_enter_time` (and
`sc_enter_time > 0`) the Consumer computes the duration with unsigned
64-bit wraparound: the stored value is `2^64 - (sc_enter_time -
sample_actual_ktime)`, it is not zero, and its signed 64-bit
reinterpretation (what the CSV `%lld` conversion prints) is the negative
difference `sample_actual_ktime - sc_enter_time`. -/
theorem c3_duration_wraps_not_clamped (sample_actual_ktime sc_enter_time : Nat)
    (h0 : 0 < sc_enter_time) (hlt : sample_actual_ktime < sc_enter_time)
    (hrange : sc_enter_time - sample_actual_ktime ≤ S64_HALF)
    (hen : sc_enter_time < U64) :
    handle_task_sc_duration_ns sample_actual_ktime sc_enter_time
        = U64 - (sc_enter_time - sample_actual_ktime) ∧
    handle_task_sc_duration_ns sample_actual_ktime sc_enter_time ≠ 0 ∧
    toS64 (handle_task_sc_duration_ns sample_actual_ktime sc_enter_time)
        = (sample_actual_ktime : Int) - (sc_enter_time : Int) := by
  unfold handle_task_sc_duration_ns toS64 u64sub
  rw [if_pos h0]
  simp only [U64, S64_HALF] at *
  refine ⟨by omega, by omega, ?_⟩
  split <;> omega

/-- Witness for the amended C3 at the concrete inputs of the
counterexample. -/
theorem c3_duration_wraps_not_clamped_witness :
    handle_task_sc_duration_ns 100 200 = U64 - (200 - 100) ∧
    handle_task_sc_duration_ns 100 200 ≠ 0 ∧
    toS64 (handle_task_sc_duration_ns 100 200) = (100 : Int) - (200 : Int) :=
  c3_duration_wraps_not_clamped 100 200 (by decide) (by decide) (by decide) (by decide)

/-! ## Consumer: STATE column formatting (`main.c`, `format_task_state`) -/

/-- Lowercase hexadecimal digit, as produced by C `%x`. -/
def hexDigit (n : Nat) : Char :=
  if n < 10 then Char.ofNat (48 + n) else Char.ofNat (87 + n)

/-- Hex digit list of `n` (most significant first), with enough fuel for a
32-bit value. -/
def natToHexAux : Nat → Nat → List Char
  | 0, _ => []
  | _, 0 => []
  | fuel + 1, n => natToHexAux fuel (n / 16) ++ [hexDigit (n % 16)]

/-- Render `n` the way C `printf("%x", n)` does (lowercase, no leading
zeros, a single `0` for zero). -/
def natToHex (n : Nat) : String :=
  if n = 0 then "0" else String.mk (natToHexAux 16 n)


/-- The `switch (state & 0xFF)` of `format_task_state`
(`main.c:627-640`): decode the masked state to a base string, falling
back to `0x%x` of the full state word. -/
def format_task_state_base (state : Nat) : String :=
  match state &&& 0xFF with
  | 0x0000 => "RUN"
  | 0x0001 => "SLEEP"
  | 0x0002 => "DISK"
  | 0x0004 => "STOPPED"
  | 0x0080 => "DEAD"
  | 0x0200 => "WAKING"
  | 0x0400 => "NOLOAD"
  | 0x0402 => "IDLE"
  | 0x0800 => "NEW"
  | _ => "0x" ++ natToHex state

/-- Function `format_task_state` from `main.c:621-656`: the decoded base string,
then append `Q` when `on_rq > 0 && on_cpu == 0` and `M` when
`migration_pending` is non-NULL. -/
def format_task_state (state : Nat) (on_rq on_cpu : Int) (migration_pending : Bool) : String :=
  let base := format_task_state_base state
  let withQ := if on_rq > 0 ∧ on_cpu = 0 then base ++ "Q" else base
  if migration_pending then withQ ++ "M" else withQ

theorem string_append_empty (s : String) : s ++ "" = s := by
  cases s with
  | mk data =>
    show String.mk (data ++ []) = String.mk data
    rw [List.append_nil]

theorem format_task_state_base_cases (state : Nat) :
    format_task_state_base state
        ∈ ["RUN", "SLEEP", "DISK", "STOPPED", "DEAD", "WAKING", "NOLOAD", "IDLE", "NEW"]
      ∨ format_task_state_base state = "0x" ++ natToHex state := by
  unfold format_task_state_base
  split
  all_goals first
    | exact Or.inr rfl
    | exact Or.inl (by simp)

/-- C5: every formatted STATE string decodes the bottom byte of the state
word to one of the nine named states (or the `0x`-prefixed hex fallback),
followed by `Q` exactly when `on_rq > 0` and `on_cpu = 0`, and by `M`
exactly when `migration_pending` is non-NULL. -/
theorem c5_state_format (state : Nat) (on_rq on_cpu : Int) (migration_pending : Bool) :
    ∃ base : String,
      (base ∈ ["RUN", "SLEEP", "DISK", "STOPPED", "DEAD", "WAKING", "NOLOAD", "IDLE", "NEW"]
        ∨ base = "0x" ++ natToHex state) ∧
      format_task_state state on_rq on_cpu migration_pending
        = base ++ (if on_rq > 0 ∧ on_cpu = 0 then "Q" else "")
               ++ (if migration_pending then "M" else "") := by
  refine ⟨format_task_state_base state, format_task_state_base_cases state, ?_⟩
  unfold format_task_state
  dsimp only
  by_cases hq : on_rq > 0 ∧ on_cpu = 0 <;> by_cases hm : migration_pending = true <;>
    simp [hq, hm, string_append_empty]

/-! ## Sampler interest filter (`task.bpf.c`, `fd_helpers.h`)

Syscall numbers are the Linux x86-64 ABI values used by the generated
`syscall_x86_64.h` header; the ones appearing in the repo's
`syscall_fd_bitmap_x86_64.h` comments corroborate them. -/

def __NR_read : Int := 0
def __NR_poll : Int := 7
def __NR_pread64 : Int := 17
def __NR_readv : Int := 19
def __NR_select : Int := 23
def __NR_connect : Int := 42
def __NR_accept : Int := 43
def __NR_recvfrom : Int := 45
def __NR_recvmsg : Int := 47
def __NR_io_setup : Int := 206
def __NR_io_destroy : Int := 207
def __NR_io_getevents : Int := 208
def __NR_io_submit : Int := 209
def __NR_io_cancel : Int := 210
def __NR_epoll_wait : Int := 232
def __NR_pselect6 : Int := 270
def __NR_ppoll : Int := 271
def __NR_epoll_pwait : Int := 281
def __NR_accept4 : Int := 288
def __NR_preadv : Int := 295
def __NR_recvmmsg : Int := 299
def __NR_preadv2 : Int := 327
def __NR_io_pgetevents : Int := 333
def __NR_io_uring_enter : Int := 426
def __NR_epoll_pwait2 : Int := 441

/-- Function `is_read_syscall` from `fd_helpers.h:28-64` (x86-64 build: `__NR_poll`,
`__NR_select`, `__NR_epoll_wait` and `__NR_epoll_pwait2` are all
defined). -/
def is_read_syscall (syscall_nr : Int) : Bool :=
  syscall_nr == __NR_read || syscall_nr == __NR_readv ||
  syscall_nr == __NR_pread64 || syscall_nr == __NR_preadv ||
  syscall_nr == __NR_preadv2 || syscall_nr == __NR_recvfrom ||
  syscall_nr == __NR_recvmsg || syscall_nr == __NR_recvmmsg ||
  syscall_nr == __NR_poll || syscall_nr == __NR_select ||
  syscall_nr == __NR_pselect6 || syscall_nr == __NR_ppoll ||
  syscall_nr == __NR_epoll_wait || syscall_nr == __NR_epoll_pwait ||
  syscall_nr == __NR_epoll_pwait2 ||
  syscall_nr == __NR_connect || syscall_nr == __NR_accept ||
  syscall_nr == __NR_accept4

/-- The `syscall_fd_bitmap` table from `syscall_fd_bitmap_x86_64.h`:
eight 64-bit chunks, one bit per syscall number that carries a file
descriptor in its first argument. -/
def syscall_fd_bitmap : List Nat :=
  [ (1 <<< (0 - 0)) ||| (1 <<< (1 - 0)) ||| (1 <<< (3 - 0)) ||| (1 <<< (5 - 0)) |||
    (1 <<< (8 - 0)) ||| (1 <<< (16 - 0)) ||| (1 <<< (17 - 0)) ||| (1 <<< (18 - 0)) |||
    (1 <<< (19 - 0)) ||| (1 <<< (20 - 0)) ||| (1 <<< (33 - 0)) ||| (1 <<< (40 - 0)) |||
    (1 <<< (42 - 0)) ||| (1 <<< (43 - 0)) ||| (1 <<< (44 - 0)) ||| (1 <<< (45 - 0)) |||
    (1 <<< (46 - 0)) ||| (1 <<< (47 - 0)) ||| (1 <<< (48 - 0)) ||| (1 <<< (49 - 0)) |||
    (1 <<< (50 - 0)) ||| (1 <<< (51 - 0)) ||| (1 <<< (52 - 0)) ||| (1 <<< (54 - 0)) |||
    (1 <<< (55 - 0)),
    (1 <<< (72 - 64)) ||| (1 <<< (73 - 64)) ||| (1 <<< (74 - 64)) ||| (1 <<< (75 - 64)) |||
    (1 <<< (77 - 64)) ||| (1 <<< (78 - 64)) ||| (1 <<< (81 - 64)) ||| (1 <<< (91 - 64)) |||
    (1 <<< (93 - 64)),
    (1 <<< (138 - 128)) ||| (1 <<< (187 - 128)) ||| (1 <<< (190 - 128)),
    (1 <<< (193 - 192)) ||| (1 <<< (196 - 192)) ||| (1 <<< (199 - 192)) |||
    (1 <<< (217 - 192)) ||| (1 <<< (221 - 192)) ||| (1 <<< (232 - 192)) |||
    (1 <<< (233 - 192)) ||| (1 <<< (254 - 192)) ||| (1 <<< (255 - 192)),
    (1 <<< (257 - 256)) ||| (1 <<< (258 - 256)) ||| (1 <<< (259 - 256)) |||
    (1 <<< (260 - 256)) ||| (1 <<< (261 - 256)) ||| (1 <<< (262 - 256)) |||
    (1 <<< (263 - 256)) ||| (1 <<< (264 - 256)) ||| (1 <<< (265 - 256)) |||
    (1 <<< (267 - 256)) ||| (1 <<< (268 - 256)) ||| (1 <<< (269 - 256)) |||
    (1 <<< (275 - 256)) ||| (1 <<< (276 - 256)) ||| (1 <<< (277 - 256)) |||
    (1 <<< (278 - 256)) ||| (1 <<< (280 - 256)) ||| (1 <<< (281 - 256)) |||
    (1 <<< (282 - 256)) ||| (1 <<< (285 - 256)) ||| (1 <<< (286 - 256)) |||
    (1 <<< (287 - 256)) ||| (1 <<< (288 - 256)) ||| (1 <<< (289 - 256)) |||
    (1 <<< (292 - 256)) ||| (1 <<< (295 - 256)) ||| (1 <<< (296 - 256)) |||
    (1 <<< (299 - 256)) ||| (1 <<< (301 - 256)) ||| (1 <<< (303 - 256)) |||
    (1 <<< (304 - 256)) ||| (1 <<< (306 - 256)) ||| (1 <<< (307 - 256)) |||
    (1 <<< (308 - 256)) ||| (1 <<< (313 - 256)) ||| (1 <<< (316 - 256)),
    (1 <<< (320 - 320)) ||| (1 <<< (322 - 320)) ||| (1 <<< (326 - 320)) |||
    (1 <<< (327 - 320)) ||| (1 <<< (328 - 320)) ||| (1 <<< (332 - 320)),
    (1 <<< (424 - 384)) ||| (1 <<< (426 - 384)) ||| (1 <<< (427 - 384)) |||
    (1 <<< (428 - 384)) ||| (1 <<< (429 - 384)) ||| (1 <<< (431 - 384)) |||
    (1 <<< (432 - 384)) ||| (1 <<< (433 - 384)) ||| (1 <<< (436 - 384)) |||
    (1 <<< (437 - 384)) ||| (1 <<< (438 - 384)) ||| (1 <<< (439 - 384)) |||
    (1 <<< (440 - 384)) ||| (1 <<< (441 - 384)) ||| (1 <<< (442 - 384)) |||
    (1 <<< (443 - 384)) ||| (1 <<< (445 - 384)) ||| (1 <<< (446 - 384)),
    (1 <<< (448 - 448)) ||| (1 <<< (451 - 448)) ||| (1 <<< (452 - 448)) ]

/-- The `SYSCALL_HAS_FD_ARG1` macro from `syscall_fd_bitmap_x86_64.h`:
test the bit for `syscall_nr` in the bitmap (false for numbers
at or above 512). -/
def SYSCALL_HAS_FD_ARG1 (syscall_nr : Nat) : Bool :=
  if syscall_nr < 512 then
    (syscall_fd_bitmap.getD (syscall_nr / 64) 0) &&& (1 <<< (syscall_nr % 64)) != 0
  else false

def TASK_INTERRUPTIBLE : Nat := 0x00000001
def IPPROTO_TCP : Nat := 6
def IPPROTO_UDP : Nat := 17
def TCP_LISTEN : Nat := 10

/-- Helper `bpf_ntohs`: byte-swap of a 16-bit network-order value into host
(little-endian) order. -/
def bpf_ntohs (x : Nat) : Nat :=
  (x % 256) * 256 + (x / 256) % 256

/-- The fields of `struct socket_info` that the interest filter reads
(`get_socket_info` fills them from the kernel socket; `sport` is kept in
network byte order). -/
structure socket_info where
  protocol : Nat
  state : Nat
  sport : Nat
deriving Repr, DecidableEq

/-- The socket classification shared by `check_fd_port`
(`fd_helpers.h:112-126`) and the inline fd-arg1 code in `get_tasks`
(`task.bpf.c:276-291`): TCP sockets in LISTEN state map to the sentinel
value `1`, other TCP/UDP sockets map to their host-order local port, and
everything else maps to `0`. -/
def check_fd_port_sock_class (si : socket_info) : Nat :=
  if si.protocol = IPPROTO_TCP ∨ si.protocol = IPPROTO_UDP then
    if si.protocol = IPPROTO_TCP ∧ si.state = TCP_LISTEN then 1
    else bpf_ntohs si.sport
  else 0

/-- Function `should_emit_task` from `task.bpf.c:50-91`: the in-kernel interest
filter applied to every task that survived the fast-path filters. -/
def should_emit_task (xcap_show_all : Bool) (xcap_daemon_ports : Nat)
    (task_state : Nat) (syscall_nr : Int) (aio_inflight_reqs : Nat)
    (io_uring_sq_pending io_uring_cq_pending : Nat)
    (read_local_port_num : Nat) : Bool :=
  if xcap_show_all then true
  else if (syscall_nr = __NR_io_getevents ∨ syscall_nr = __NR_io_pgetevents)
          ∧ aio_inflight_reqs ≠ 0 then true
  else if syscall_nr = __NR_io_uring_enter
          ∧ (io_uring_sq_pending > 0 ∨ io_uring_cq_pending > 0) then true
  else if task_state &&& TASK_INTERRUPTIBLE ≠ 0 then
    if read_local_port_num > 0 ∧ is_read_syscall syscall_nr then
      if read_local_port_num = 1 then false
      else if read_local_port_num ≤ xcap_daemon_ports then false
      else true
    else false
  else true

/-- The `read_local_port_num` computation of `get_tasks`
(`task.bpf.c:192-292`): dispatch on the passively sampled syscall number.
The ppoll / pselect6 / io_uring helper results are inputs here (they
read user memory); `fd_arg0_socket` is the socket-info read for
`fd_array[arg0]` in the fd-first-argument branch (`none` when there is
no file, the file is not a TCP/UDP socket, or the read failed). -/
def get_tasks_read_local_port (syscall_nr : Int)
    (ppoll_port pselect6_port io_uring_port : Nat)
    (fd_arg0_socket : Option socket_info) : Nat :=
  if syscall_nr = __NR_ppoll then ppoll_port
  else if syscall_nr = __NR_pselect6 then pselect6_port
  else if syscall_nr = __NR_io_getevents ∨ syscall_nr = __NR_io_pgetevents ∨
          syscall_nr = __NR_io_submit ∨ syscall_nr = __NR_io_cancel ∨
          syscall_nr = __NR_io_destroy then 0
  else if syscall_nr = __NR_io_uring_enter then io_uring_port
  else if 0 ≤ syscall_nr ∧ SYSCALL_HAS_FD_ARG1 syscall_nr.toNat then
    match fd_arg0_socket with
    | some si => check_fd_port_sock_class si
    | none => 0
  else 0

/-- C6: a TASK_INTERRUPTIBLE task blocked in `epoll_pwait` whose
first-argument fd is a TCP socket in LISTEN state is dropped by the
interest filter when `show_all` is not set, under the default
daemon-port threshold 10000 (`epoll_pwait` is in the fd-first-argument
bitmap; the LISTEN socket classifies to the sentinel port value 1, which
the filter drops unconditionally). -/
theorem c6_epoll_pwait_listen_dropped (task_state : Nat)
    (aio_inflight_reqs io_uring_sq_pending io_uring_cq_pending : Nat)
    (ppoll_port pselect6_port io_uring_port : Nat) (si : socket_info)
    (hsleep : task_state &&& TASK_INTERRUPTIBLE ≠ 0)
    (htcp : si.protocol = IPPROTO_TCP)
    (hlisten : si.state = TCP_LISTEN) :
    SYSCALL_HAS_FD_ARG1 __NR_epoll_pwait.toNat = true ∧
    should_emit_task false 10000 task_state __NR_epoll_pwait aio_inflight_reqs
      io_uring_sq_pending io_uring_cq_pending
      (get_tasks_read_local_port __NR_epoll_pwait ppoll_port pselect6_port io_uring_port
        (some si)) = false := by
  have hbit : SYSCALL_HAS_FD_ARG1 __NR_epoll_pwait.toNat = true := by decide
  have hport : get_tasks_read_local_port __NR_epoll_pwait ppoll_port pselect6_port
      io_uring_port (some si) = 1 := by
    unfold get_tasks_read_local_port
    rw [if_neg (by decide), if_neg (by decide), if_neg (by decide), if_neg (by decide),
        if_pos ⟨by decide, hbit⟩]
    simp [check_fd_port_sock_class, htcp, hlisten, IPPROTO_TCP, TCP_LISTEN]
  refine ⟨hbit, ?_⟩
  rw [hport]
  unfold should_emit_task
  rw [if_neg (by simp), if_neg (by simp [__NR_io_getevents, __NR_io_pgetevents, __NR_epoll_pwait]),
      if_neg (by simp [__NR_io_uring_enter, __NR_epoll_pwait]), if_pos hsleep,
      if_pos ⟨by decide, by decide⟩, if_pos rfl]

/-- Witness for C6 at a concrete sleeping task and LISTEN socket. -/
theorem c6_epoll_pwait_listen_dropped_witness :
    SYSCALL_HAS_FD_ARG1 __NR_epoll_pwait.toNat = true ∧
    should_emit_task false 10000 1 __NR_epoll_pwait 0 0 0
      (get_tasks_read_local_port __NR_epoll_pwait 0 0 0 (some ⟨6, 10, 5632⟩)) = false :=
  c6_epoll_pwait_listen_dropped 1 0 0 0 0 0 0 ⟨6, 10, 5632⟩ (by decide) rfl rfl

/-- C9: a sleeping task in a read-type syscall on a non-LISTEN TCP or
UDP socket whose host-order local port is exactly 1 is dropped by the
interest filter for every daemon-ports threshold (including 0): port 1
is indistinguishable from the sentinel that `check_fd_port` returns for
LISTEN sockets, and the filter drops sentinel 1 before consulting the
threshold. -/
theorem c9_local_port_one_always_dropped (xcap_daemon_ports task_state : Nat)
    (syscall_nr : Int) (aio_inflight_reqs io_uring_sq_pending io_uring_cq_pending : Nat)
    (si : socket_info)
    (hsleep : task_state &&& TASK_INTERRUPTIBLE ≠ 0)
    (hread : is_read_syscall syscall_nr = true)
    (hproto : si.protocol = IPPROTO_TCP ∨ si.protocol = IPPROTO_UDP)
    (hnotlisten : ¬(si.protocol = IPPROTO_TCP ∧ si.state = TCP_LISTEN))
    (hport : bpf_ntohs si.sport = 1) :
    check_fd_port_sock_class si = 1 ∧
    should_emit_task false xcap_daemon_ports task_state syscall_nr aio_inflight_reqs
      io_uring_sq_pending io_uring_cq_pending (check_fd_port_sock_class si) = false := by
  have hclass : check_fd_port_sock_class si = 1 := by
    unfold check_fd_port_sock_class
    rw [if_pos hproto, if_neg hnotlisten, hport]
  have hne : syscall_nr ≠ __NR_io_getevents ∧ syscall_nr ≠ __NR_io_pgetevents ∧
      syscall_nr ≠ __NR_io_uring_enter := by
    simp only [is_read_syscall, Bool.or_eq_true, beq_iff_eq] at hread
    rcases hread with ((((((((((((((((h | h) | h) | h) | h) | h) | h) | h) | h) | h) | h)
      | h) | h) | h) | h) | h) | h) | h <;> subst h <;> exact ⟨by decide, by decide, by decide⟩
  refine ⟨hclass, ?_⟩
  rw [hclass]
  unfold should_emit_task
  rw [if_neg (by simp), if_neg (by simp [hne.1, hne.2.1]), if_neg (by simp [hne.2.2]),
      if_pos hsleep, if_pos ⟨by decide, hread⟩, if_pos rfl]

/-- Witness for C9: a UDP socket with network-order local port 0x0100
(host-order port 1), a task sleeping in `read`, threshold 0. -/
theorem c9_local_port_one_always_dropped_witness :
    check_fd_port_sock_class ⟨17, 7, 256⟩ = 1 ∧
    should_emit_task false 0 1 __NR_read 0 0 0 (check_fd_port_sock_class ⟨17, 7, 256⟩) = false :=
  c9_local_port_one_always_dropped 0 1 __NR_read 0 0 0 ⟨17, 7, 256⟩
    (by decide) (by decide) (by decide) (by decide) (by decide)

/-! ## AIO ring inflight counting (`syscall.bpf.c`, `io_helpers.h`) -/

/-- Constant `UINT32_MAX` as defined in `xcapture.h`. -/
def UINT32_MAX : Nat := 0xFFFFFFFF

/-- The `struct aio_ring` header prefix read from user memory by
`get_aio_inflight_count_task` (`io_helpers.h:735-740`). -/
structure aio_ring where
  id : Nat
  nr : Nat
  head : Nat
  tail : Nat
deriving Repr, DecidableEq

/-- Function `get_num_inflight_aios_ring` from `syscall.bpf.c:91-107` (syscall
entry probe).  `headRead` / `tailRead` are the results of the two
`BPF_CORE_READ_USER_INTO` probes (`none` = read error, in which case the
C code returns `-1` / `-2`, converted to `__u32`). -/
def get_num_inflight_aios_ring (ctx_id : Nat)
    (headRead tailRead : Option Nat) : Nat :=
  if ctx_id = 0 then 0
  else match headRead with
  | none => 4294967295
  | some head =>
    match tailRead with
    | none => 4294967294
    | some tail =>
      if tail ≥ head then tail - head
      else (UINT32_MAX - head) + tail + 1

/-- Function `get_aio_inflight_count_task` from `io_helpers.h:731-755` (task
iterator context, non-`OLD_KERNEL_SUPPORT` build).  `task_valid` models
the `!task` NULL check; `ringRead` is the result of
`xcap_copy_from_user_task` (`none` = read failed, returns 0). -/
def get_aio_inflight_count_task (ctx_id : Nat) (task_valid : Bool)
    (ringRead : Option aio_ring) : Nat :=
  if ctx_id = 0 ∨ ¬ task_valid then 0
  else match ringRead with
  | none => 0
  | some ring =>
    if ring.tail ≥ ring.head then ring.tail - ring.head
    else (UINT32_MAX - ring.head) + ring.tail + 1

/-- C4 counterexample: for the ring header with `nr = 128`, `head = 5`,
`tail = 3` (a wrapped ring), the recorded inflight count is the 32-bit
wraparound value `4294967294`, not `(tail - head) mod nr = 126`. -/
theorem c4_mod_nr_counterexample :
    get_aio_inflight_count_task 4096 true (some ⟨7, 128, 5, 3⟩)
      ≠ ((((3 : Int) - 5) % 128)).toNat := by
  decide

/-- C4 amended: the inflight count recorded from the aio ring header is
`(tail - head) mod 2^32` — the ring's `nr` field is read but not used in
the computation. -/
theorem c4_inflight_mod_u32 (ctx_id : Nat) (ring : aio_ring)
    (hctx : ctx_id ≠ 0) (hh : ring.head < U32) (ht : ring.tail < U32) :
    get_aio_inflight_count_task ctx_id true (some ring)
      = ((((ring.tail : Int) - ring.head) % (U32 : Int))).toNat := by
  unfold get_aio_inflight_count_task
  rw [if_neg (by simp [hctx])]
  simp only [UINT32_MAX, U32] at *
  split <;> push_cast <;> omega

/-- Witness for the amended C4 at the counterexample's ring header. -/
theorem c4_inflight_mod_u32_witness :
    get_aio_inflight_count_task 4096 true (some ⟨7, 128, 5, 3⟩)
      = ((((3 : Int) - 5) % (U32 : Int))).toNat :=
  c4_inflight_mod_u32 4096 ⟨7, 128, 5, 3⟩ (by decide) (by decide) (by decide)

/-- From `task.bpf.c:203-216`: the value of
`storage->state.aio_inflight_reqs` that `should_emit_task` reads at
`task.bpf.c:295`, as a function of the value last stored by the syscall
probe (`prev_aio_inflight_reqs`) and the sampler's own ring-header read.
For the five AIO syscalls the sampler unconditionally overwrites the
stored count with `get_aio_inflight_count_task`; for every other syscall
number the stored value survives.  `passive_regs_valid` models the
`&& passive_regs` conjunct (in `get_tasks`, `passive_syscall_nr >= 0`
only ever holds with non-NULL `passive_regs`, `task.bpf.c:163-190`). -/
def get_tasks_aio_inflight_update (prev_aio_inflight_reqs : Nat) (syscall_nr : Int)
    (passive_regs_valid : Bool) (ctx_id : Nat) (task_valid : Bool)
    (ringRead : Option aio_ring) : Nat :=
  if (syscall_nr = __NR_io_getevents ∨ syscall_nr = __NR_io_pgetevents ∨
      syscall_nr = __NR_io_submit ∨ syscall_nr = __NR_io_cancel ∨
      syscall_nr = __NR_io_destroy) ∧ passive_regs_valid = true then
    get_aio_inflight_count_task ctx_id task_valid ringRead
  else prev_aio_inflight_reqs

/-- C10 counterexample: a task sleeping in `io_getevents` whose ring
header is unreadable.  The syscall-entry probe does store the sentinel
`0xFFFFFFFF`, but before the interest filter runs the sampler overwrites
`aio_inflight_reqs` with its own `get_aio_inflight_count_task` result —
`0`, since the same ring header is still unreadable — and the filter
then drops the task instead of keeping it. -/
theorem c10_sentinel_dropped_counterexample :
    get_num_inflight_aios_ring 4096 none none = 4294967295 ∧
    get_tasks_aio_inflight_update (get_num_inflight_aios_ring 4096 none none)
      __NR_io_getevents true 4096 true none = 0 ∧
    should_emit_task false 10000 1 __NR_io_getevents
      (get_tasks_aio_inflight_update (get_num_inflight_aios_ring 4096 none none)
        __NR_io_getevents true 4096 true none) 0 0 0 = false := by
  decide

/-- C10 amended: on a failed ring-header read the syscall-entry probe
does set `aio_inflight_reqs` to the error code cast to `__u32`
(`0xFFFFFFFF` for the head read, `0xFFFFFFFE` for the tail read), never
to `0` — but that sentinel never reaches the interest filter.  For
`io_getevents` / `io_pgetevents` tasks (the only ones whose keep-rule
consults `aio_inflight_reqs`), the sampler unconditionally overwrites
the stored value with `get_aio_inflight_count_task` before
`should_emit_task` runs, whatever the probe stored; and when the
sampler's own read of the ring header also fails, the recomputed count
is `0` and a sleeping task is dropped, not kept. -/
theorem c10_probe_sentinel_overwritten_before_filter (ctx_id : Nat)
    (headRead tailRead : Option Nat) (prev_aio_inflight_reqs : Nat) (syscall_nr : Int)
    (xcap_daemon_ports task_state : Nat)
    (io_uring_sq_pending io_uring_cq_pending read_local_port_num : Nat)
    (ringRead : Option aio_ring)
    (hctx : ctx_id ≠ 0) (hfail : headRead = none ∨ tailRead = none)
    (hnr : syscall_nr = __NR_io_getevents ∨ syscall_nr = __NR_io_pgetevents)
    (hsleep : task_state &&& TASK_INTERRUPTIBLE ≠ 0) :
    (get_num_inflight_aios_ring ctx_id headRead tailRead = 4294967295 ∨
     get_num_inflight_aios_ring ctx_id headRead tailRead = 4294967294) ∧
    get_num_inflight_aios_ring ctx_id headRead tailRead ≠ 0 ∧
    get_tasks_aio_inflight_update prev_aio_inflight_reqs syscall_nr true ctx_id true ringRead
      = get_aio_inflight_count_task ctx_id true ringRead ∧
    (ringRead = none →
      should_emit_task false xcap_daemon_ports task_state syscall_nr
        (get_tasks_aio_inflight_update prev_aio_inflight_reqs syscall_nr true ctx_id true
          ringRead)
        io_uring_sq_pending io_uring_cq_pending read_local_port_num = false) := by
  have hval : get_num_inflight_aios_ring ctx_id headRead tailRead = 4294967295 ∨
      get_num_inflight_aios_ring ctx_id headRead tailRead = 4294967294 := by
    unfold get_num_inflight_aios_ring
    rw [if_neg hctx]
    rcases hfail with h | h
    · rw [h]
      exact Or.inl rfl
    · cases headRead with
      | none => exact Or.inl rfl
      | some head =>
        rw [h]
        exact Or.inr rfl
  have hne : get_num_inflight_aios_ring ctx_id headRead tailRead ≠ 0 := by
    rcases hval with h | h <;> rw [h] <;> decide
  have hupd : get_tasks_aio_inflight_update prev_aio_inflight_reqs syscall_nr true
      ctx_id true ringRead = get_aio_inflight_count_task ctx_id true ringRead := by
    unfold get_tasks_aio_inflight_update
    rcases hnr with h | h <;> subst h <;>
      rw [if_pos ⟨by simp [__NR_io_getevents, __NR_io_pgetevents, __NR_io_submit,
        __NR_io_cancel, __NR_io_destroy], rfl⟩]
  refine ⟨hval, hne, hupd, ?_⟩
  intro hring
  subst hring
  have hzero : get_aio_inflight_count_task ctx_id true none = 0 := by
    unfold get_aio_inflight_count_task
    rw [if_neg (by simp [hctx])]
  rw [hupd, hzero]
  unfold should_emit_task
  rcases hnr with h | h <;> subst h <;>
    rw [if_neg (by simp), if_neg (by simp),
        if_neg (fun hc => absurd hc.1 (by decide)),
        if_pos hsleep,
        if_neg (fun hc => absurd hc.2 (by decide))]

/-- Witness for the amended C10: unreadable ring header at both the
probe and the sampler, task sleeping in `io_getevents`, default
threshold 10000 — the sentinel is stored, overwritten to 0, and the
task is dropped. -/
theorem c10_probe_sentinel_overwritten_before_filter_witness :
    (get_num_inflight_aios_ring 4096 none none = 4294967295 ∨
     get_num_inflight_aios_ring 4096 none none = 4294967294) ∧
    get_num_inflight_aios_ring 4096 none none ≠ 0 ∧
    get_tasks_aio_inflight_update 4294967295 __NR_io_getevents true 4096 true none
      = get_aio_inflight_count_task 4096 true none ∧
    ((none : Option aio_ring) = none →
      should_emit_task false 10000 1 __NR_io_getevents
        (get_tasks_aio_inflight_update 4294967295 __NR_io_getevents true 4096 true none)
        0 0 0 = false) :=
  c10_probe_sentinel_overwritten_before_filter 4096 none none 4294967295 __NR_io_getevents
    10000 1 0 0 0 none (by decide) (Or.inl rfl) (Or.inl rfl) (by decide)

/-! ## Block-I/O request tracking (`xcapture.h`, `iorq_hashmap.bpf.c`,
`task.bpf.c`) -/

/-- Mirror of `struct iorq_info` from `xcapture.h:95-102`: the per-request
IorqTracking entry keyed by the kernel request pointer. -/
structure iorq_info where
  iorq_sampled : Bool
  iorq_sequence_num : Nat
  insert_pid : Int
  insert_tgid : Int
  issue_pid : Int
  issue_tgid : Int
deriving Repr, DecidableEq

/-- The iorq-attribution step of `get_tasks` (`task.bpf.c:558-563`):
after looking up IorqTracking by `last_iorq_rq`, set
`iorq_sampled = true` only when the entry's `insert_pid` equals the
sampled task's pid and its `iorq_sequence_num` equals the task's current
`iorq_sequence_num`; otherwise the entry is untouched. -/
def get_tasks_iorq_attribution (info : iorq_info) (task_pid : Int)
    (task_iorq_sequence_num : Nat) : iorq_info :=
  if info.insert_pid = task_pid ∧ info.iorq_sequence_num = task_iorq_sequence_num then
    { info with iorq_sampled := true }
  else info

/-- C7: the sampler marks the found IorqTracking entry sampled exactly
when both the inserter pid and the sequence number agree with the sampled
task; in every other case the entry is left unchanged. -/
theorem c7_iorq_attribution_triple_check (info : iorq_info) (task_pid : Int)
    (task_iorq_sequence_num : Nat) :
    (info.insert_pid = task_pid ∧ info.iorq_sequence_num = task_iorq_sequence_num →
      get_tasks_iorq_attribution info task_pid task_iorq_sequence_num
        = { info with iorq_sampled := true }) ∧
    (¬(info.insert_pid = task_pid ∧ info.iorq_sequence_num = task_iorq_sequence_num) →
      get_tasks_iorq_attribution info task_pid task_iorq_sequence_num = info) := by
  constructor
  · intro h
    unfold get_tasks_iorq_attribution
    rw [if_pos h]
  · intro h
    unfold get_tasks_iorq_attribution
    rw [if_neg h]

/-- Witness for C7: a matching entry is marked sampled; a pid mismatch
and a sequence mismatch both leave the entry unchanged. -/
theorem c7_iorq_attribution_triple_check_witness :
    get_tasks_iorq_attribution ⟨false, 5, 7, 7, 8, 8⟩ 7 5 = ⟨true, 5, 7, 7, 8, 8⟩ ∧
    get_tasks_iorq_attribution ⟨false, 5, 7, 7, 8, 8⟩ 9 5 = ⟨false, 5, 7, 7, 8, 8⟩ ∧
    get_tasks_iorq_attribution ⟨false, 5, 7, 7, 8, 8⟩ 7 11 = ⟨false, 5, 7, 7, 8, 8⟩ :=
  ⟨(c7_iorq_attribution_triple_check ⟨false, 5, 7, 7, 8, 8⟩ 7 5).1 ⟨rfl, rfl⟩,
   (c7_iorq_attribution_triple_check ⟨false, 5, 7, 7, 8, 8⟩ 9 5).2 (by decide),
   (c7_iorq_attribution_triple_check ⟨false, 5, 7, 7, 8, 8⟩ 7 11).2 (by decide)⟩

/-- Macro `MKDEV` from `xcapture.h:69` (`MINORBITS = 20`). -/
def MKDEV (ma mi : Nat) : Nat := (ma <<< 20) ||| mi

/-- The request fields `xcap_iorq_complete` reads from `struct request`;
`disk` is `some (major, first_minor)` when `rq->q` and `rq->q->disk` are
both non-NULL. -/
structure rq_fields where
  data_len : Nat
  sector : Nat
  cmd_flags : Nat
  start_time_ns : Nat
  io_start_time_ns : Nat
  disk : Option (Nat × Nat)
deriving Repr, DecidableEq

/-- Mirror of `struct iorq_completion_event` from `xcapture.h:187-205`, with each
field wrapped in `Option`: `some v` means `xcap_iorq_complete` assigns
the value `v` before submitting, `none` means the field is never
assigned and the consumer reads whatever stale bytes the reused
ring-buffer page happens to contain. -/
structure iorq_completion_event where
  type : Option Nat
  rq : Option Nat
  insert_pid : Option Int
  insert_tgid : Option Int
  issue_pid : Option Int
  issue_tgid : Option Int
  complete_pid : Option Int
  complete_tgid : Option Int
  iorq_sequence_num : Option Nat
  iorq_insert_time : Option Nat
  iorq_issue_time : Option Nat
  iorq_complete_time : Option Nat
  iorq_dev : Option Nat
  iorq_sector : Option Nat
  iorq_bytes : Option Nat
  iorq_cmd_flags : Option Nat
  iorq_error : Option Int
deriving Repr, DecidableEq

/-- Constant `EVENT_IORQ_COMPLETION` from the `event_type` enum in `xcapture.h`. -/
def EVENT_IORQ_COMPLETION : Nat := 3

/-- Probe `xcap_iorq_complete` from `iorq_hashmap.bpf.c:60-100`.  Inputs:
the request pointer and completion arguments, the IorqTracking lookup
result, and whether the ring-buffer reservation succeeds.  Output: the
submitted completion event (if any) and whether the tracking entry is
deleted. -/
def xcap_iorq_complete (rq_ptr : Nat) (error : Int) (nr_bytes : Nat)
    (rq : rq_fields) (lookup : Option iorq_info) (reserveOk : Bool)
    (now : Nat) : Option iorq_completion_event × Bool :=
  if nr_bytes < rq.data_len then (none, false)
  else match lookup with
  | none => (none, false)
  | some info =>
    if ¬ info.iorq_sampled then (none, true)
    else if ¬ reserveOk then (none, true)
    else
      (some
        { type := some EVENT_IORQ_COMPLETION
          rq := some rq_ptr
          insert_pid := some info.insert_pid
          insert_tgid := some info.insert_tgid
          issue_pid := some info.issue_pid
          issue_tgid := some info.issue_tgid
          complete_pid := none
          complete_tgid := none
          iorq_sequence_num := some info.iorq_sequence_num
          iorq_complete_time := some now
          iorq_sector := some rq.sector
          iorq_bytes := some rq.data_len
          iorq_cmd_flags := some rq.cmd_flags
          iorq_insert_time := some rq.start_time_ns
          iorq_issue_time := some rq.io_start_time_ns
          iorq_error := some error
          iorq_dev := some (match rq.disk with
            | some (ma, mi) => MKDEV ma mi
            | none => 0) }, true)

/-- C1 (code evaluated at the failing input): a sampled request that
completes in full submits an `IorqCompletion` whose inserter and issuer
pairs, timestamps, device, sector, bytes, flags and errno are all
populated, but whose completer pair `complete_pid`/`complete_tgid` is
never assigned — the consumer (`tracking_handler.c:173`) prints stale
ring-page bytes for those two fields. -/
theorem c1_completer_never_populated :
    (xcap_iorq_complete 81985529216486895 0 4096 ⟨4096, 2048, 1, 100, 150, some (8, 0)⟩
        (some ⟨true, 5, 42, 42, 43, 43⟩) true 1000).1
      = some
        { type := some EVENT_IORQ_COMPLETION
          rq := some 81985529216486895
          insert_pid := some 42
          insert_tgid := some 42
          issue_pid := some 43
          issue_tgid := some 43
          complete_pid := none
          complete_tgid := none
          iorq_sequence_num := some 5
          iorq_complete_time := some 1000
          iorq_sector := some 2048
          iorq_bytes := some 4096
          iorq_cmd_flags := some 1
          iorq_insert_time := some 100
          iorq_issue_time := some 150
          iorq_error := some 0
          iorq_dev := some (MKDEV 8 0) } := by
  rfl

/-! ## Stack-trace deduplication (`task.bpf.c:584-620` and `:705-741`,
`emitted_stacks` map from `xcapture_maps_common.h`) -/

